import Mathlib

/-!
Shallow embedding of the popcornflix TMDb integration layer:
the service client (`movies/services.py`), the read-through proxy views
(`movies/views.py`) and the sync reconcilers
(`movies/management/commands/sync_genres.py`,
`movies/management/commands/sync_popular_movies.py`),
together with theorems settling the specification claims.
-/

namespace Popcornflix

/-- Python truthiness of an optional string (`if s:` on `os.getenv` results
and on `dict.get` string values): `None` and `""` are falsy. -/
def truthy : Option String → Bool
  | none => false
  | some s => !s.isEmpty

/-- ASCII whitespace as Python's `str.strip` and `int()` strip it. -/
def isPySpace (c : Char) : Bool :=
  c == ' ' || c == '\t' || c == '\n' || c == '\r' || c == '\x0b' || c == '\x0c'

/-- Strip leading and trailing whitespace from a character list. -/
def trimChars (cs : List Char) : List Char :=
  ((cs.dropWhile isPySpace).reverse.dropWhile isPySpace).reverse

/-- Python `str.strip()`. -/
def pyStrip (s : String) : String :=
  String.mk (trimChars s.data)

/-- A nonempty all-digit character list. -/
def digitsOnly (cs : List Char) : Bool :=
  !cs.isEmpty && cs.all Char.isDigit

/-- Decimal value of a digit list. -/
def charsToNat (cs : List Char) : Nat :=
  cs.foldl (fun n c => n * 10 + (c.toNat - 48)) 0

/-- Split a character list on a separator character, Python
`str.split(sep)` style (empty components are kept). -/
def splitOnChar (sep : Char) : List Char → List (List Char)
  | [] => [[]]
  | c :: cs =>
    let r := splitOnChar sep cs
    if c == sep then
      [] :: r
    else
      match r with
      | [] => [[c]]
      | h :: t => (c :: h) :: t

/-- Python `int(str)` conversion: strips surrounding whitespace, allows an
optional sign followed by decimal digits; raises `ValueError` (here: `none`)
otherwise.  (Underscore digit separators are not modelled.) -/
def pyInt (s : String) : Option Int :=
  match trimChars s.data with
  | '-' :: rest => if digitsOnly rest then some (-(charsToNat rest : Int)) else none
  | '+' :: rest => if digitsOnly rest then some ((charsToNat rest : Int)) else none
  | rest => if digitsOnly rest then some ((charsToNat rest : Int)) else none

/-- Mantissa of a Python float literal: digits, trailing-dot digits,
digits-dot-digits or leading-dot digits. -/
def pyFloatMantissa (m : String) : Bool :=
  match m.splitOn "." with
  | [i] => i.length > 0 && i.all Char.isDigit
  | [i, f] =>
    (i.length > 0 || f.length > 0) && i.all Char.isDigit && f.all Char.isDigit
  | _ => false

/-- Python `float(str)` acceptance (sign, decimal digits with an optional
point, optional exponent, or inf/infinity/nan).
(Underscore digit separators are not modelled.) -/
def pyFloatValid (s : String) : Bool :=
  let t := (pyStrip s).toLower
  let t := if t.startsWith "-" || t.startsWith "+" then t.drop 1 else t
  if t == "inf" || t == "infinity" || t == "nan" then true
  else
    match t.splitOn "e" with
    | [mant] => pyFloatMantissa mant
    | [mant, ex] =>
      let ex := if ex.startsWith "-" || ex.startsWith "+" then ex.drop 1 else ex
      pyFloatMantissa mant && ex.length > 0 && ex.all Char.isDigit
    | _ => false

/-- Rational value of a finite Python float-literal mantissa. -/
def ratOfMantissa (m : List Char) : Rat :=
  match splitOnChar '.' m with
  | [i] => (charsToNat i : Rat)
  | [i, f] => (charsToNat i : Rat) + (charsToNat f : Rat) / ((10 : Rat) ^ f.length)
  | _ => 0

/-- Ten to a signed power, for the exponent of a float literal. -/
def ratPow10 (e : Int) : Rat :=
  if 0 ≤ e then (10 : Rat) ^ e.toNat else 1 / ((10 : Rat) ^ (-e).toNat)

/-- Numeric value of a finite Python float literal (valid per
`pyFloatValid` and not inf/infinity/nan). -/
def pyFloatOfStr (s : String) : Rat :=
  let cs := (trimChars s.data).map Char.toLower
  let signed : Rat × List Char :=
    match cs with
    | '-' :: rest => (-1, rest)
    | '+' :: rest => (1, rest)
    | rest => (1, rest)
  match splitOnChar 'e' signed.2 with
  | [mant] => signed.1 * ratOfMantissa mant
  | [mant, ex] =>
    let exSigned : Int × List Char :=
      match ex with
      | '-' :: r => (-1, r)
      | '+' :: r => (1, r)
      | r => (1, r)
    signed.1 * ratOfMantissa mant * ratPow10 (exSigned.1 * (charsToNat exSigned.2 : Int))
  | _ => 0

/-- Embeds `request.GET.get(key)` on a Django `QueryDict`: the last value supplied
for the key, or `none` when the key is absent. -/
def qget (q : List (String × String)) (k : String) : Option String :=
  (q.reverse.find? (fun p => p.1 == k)).map (·.2)

/-- A JSON value, as decoded from a TMDb response body. -/
inductive JVal where
  | jnull : JVal
  | jbool : Bool → JVal
  | jnum : Rat → JVal
  | jstr : String → JVal
  | jarr : List JVal → JVal
  | jobj : List (String × JVal) → JVal

/-- Embeds `dict.get(key)` on a decoded JSON object. -/
def dictGet (d : List (String × JVal)) (k : String) : Option JVal :=
  (d.find? (fun p => p.1 == k)).map (·.2)

/-- A query-parameter value as passed to `requests.get(url, params=...)`
(the Python code passes strings, ints and one float). -/
inductive PVal where
  | pstr : String → PVal
  | pint : Int → PVal
  | pfloat : String → PVal
deriving DecidableEq, Repr

/-- The environment variables read by `TMDbService.__init__`. -/
structure Env where
  api_key : Option String
  bearer_token : Option String
  base_url : Option String

/-- The constructed `TMDbService` instance. -/
structure TMDbService where
  api_key : Option String
  bearer_token : Option String
  base_url : String

/-- Embeds `TMDbService.__init__`: reads the credentials and base url from the
environment and raises `ValueError` when neither credential is truthy. -/
def TMDbService.init (env : Env) : Except String TMDbService :=
  let api_key := env.api_key
  let bearer_token := env.bearer_token
  let base_url := env.base_url.getD "https://api.themoviedb.org/3"
  if !truthy bearer_token && !truthy api_key then
    .error "Either TMDB_BEARER_TOKEN or TMDB_API_KEY environment variable is required"
  else
    .ok ⟨api_key, bearer_token, base_url⟩

/-- Embeds `TMDbService._get_headers`: standard headers, plus an `Authorization`
bearer header when a bearer token is configured. -/
def TMDbService.getHeaders (s : TMDbService) : List (String × String) :=
  let headers := [("Content-Type", "application/json"), ("Accept", "application/json")]
  if truthy s.bearer_token then
    headers ++ [("Authorization", "Bearer " ++ s.bearer_token.getD "")]
  else
    headers

/-- The outgoing HTTP request assembled by `TMDbService._make_request`
before it is handed to `requests.get`. -/
structure HttpRequest where
  url : String
  params : List (String × PVal)
  headers : List (String × String)

/-- The request-building half of `TMDbService._make_request`: appends the
API key as a query parameter only when no bearer token is available, and
joins the base url with the endpoint path. -/
def TMDbService.buildRequest (s : TMDbService) (endpoint : String)
    (params : List (String × PVal)) : HttpRequest :=
  let params :=
    if !truthy s.bearer_token && truthy s.api_key then
      params ++ [("api_key", PVal.pstr (s.api_key.getD ""))]
    else
      params
  { url := s.base_url ++ "/" ++ endpoint, params := params, headers := s.getHeaders }

/-- What `requests.get` can come back with: a raised
`requests.exceptions.RequestException` (transport failure, including
timeouts and redirect loops), or a response carrying an HTTP status and a
body that either decodes as a JSON object (`some`) or fails to decode
(`none`, the `ValueError` branch). -/
inductive FetchResult where
  | transportError : FetchResult
  | fetchOk : Nat → Option (List (String × JVal)) → FetchResult

/-- The network, abstracted: what `requests.get` returns for a request. -/
def Net : Type := HttpRequest → FetchResult

/-- The response-handling half of `TMDbService._make_request`:
`raise_for_status` raises `HTTPError` for statuses ≥ 400 (caught, `None`),
a transport error is caught (`None`), an undecodable body raises
`ValueError` (caught, `None`); otherwise the decoded body is returned. -/
def interpretFetch : FetchResult → Option (List (String × JVal))
  | .transportError => none
  | .fetchOk statusCode body => if 400 ≤ statusCode then none else body

/-- Embeds `TMDbService._make_request`: build the request, perform it, normalize
every failure to `None`. -/
def TMDbService.makeRequest (s : TMDbService) (net : Net) (endpoint : String)
    (params : List (String × PVal)) : Option (List (String × JVal)) :=
  interpretFetch (net (s.buildRequest endpoint params))

/-- Embeds `TMDbService.get_popular_movies`. -/
def TMDbService.get_popular_movies (s : TMDbService) (net : Net) (page : Int) :
    Option (List (String × JVal)) :=
  s.makeRequest net "movie/popular" [("page", PVal.pint page)]

/-- Embeds `TMDbService.get_top_rated_movies`. -/
def TMDbService.get_top_rated_movies (s : TMDbService) (net : Net) (page : Int) :
    Option (List (String × JVal)) :=
  s.makeRequest net "movie/top_rated" [("page", PVal.pint page)]

/-- Embeds `TMDbService.get_now_playing_movies`. -/
def TMDbService.get_now_playing_movies (s : TMDbService) (net : Net) (page : Int) :
    Option (List (String × JVal)) :=
  s.makeRequest net "movie/now_playing" [("page", PVal.pint page)]

/-- Embeds `TMDbService.get_upcoming_movies`. -/
def TMDbService.get_upcoming_movies (s : TMDbService) (net : Net) (page : Int) :
    Option (List (String × JVal)) :=
  s.makeRequest net "movie/upcoming" [("page", PVal.pint page)]

/-- Embeds `TMDbService.get_movie_details`. -/
def TMDbService.get_movie_details (s : TMDbService) (net : Net) (movie_id : Int) :
    Option (List (String × JVal)) :=
  s.makeRequest net ("movie/" ++ toString movie_id) []

/-- Embeds `TMDbService.search_movies`. -/
def TMDbService.search_movies (s : TMDbService) (net : Net) (query : String)
    (page : Int) : Option (List (String × JVal)) :=
  s.makeRequest net "search/movie" [("query", PVal.pstr query), ("page", PVal.pint page)]

/-- Embeds `TMDbService.get_genres`. -/
def TMDbService.get_genres (s : TMDbService) (net : Net) :
    Option (List (String × JVal)) :=
  s.makeRequest net "genre/movie/list" []

/-- Embeds `TMDbService.get_similar_movies`. -/
def TMDbService.get_similar_movies (s : TMDbService) (net : Net) (movie_id : Int)
    (page : Int) : Option (List (String × JVal)) :=
  s.makeRequest net ("movie/" ++ toString movie_id ++ "/similar") [("page", PVal.pint page)]

/-- Embeds `TMDbService.get_movie_recommendations`. -/
def TMDbService.get_movie_recommendations (s : TMDbService) (net : Net)
    (movie_id : Int) (page : Int) : Option (List (String × JVal)) :=
  s.makeRequest net ("movie/" ++ toString movie_id ++ "/recommendations")
    [("page", PVal.pint page)]

/-- Embeds `TMDbService.get_trending_movies`. -/
def TMDbService.get_trending_movies (s : TMDbService) (net : Net)
    (time_window : String) (page : Int) : Option (List (String × JVal)) :=
  s.makeRequest net ("trending/movie/" ++ time_window) [("page", PVal.pint page)]

/-- Embeds `TMDbService.discover_movies(**kwargs)`: forwards the keyword arguments
verbatim as query parameters of `discover/movie`. -/
def TMDbService.discover_movies (s : TMDbService) (net : Net)
    (kwargs : List (String × PVal)) : Option (List (String × JVal)) :=
  s.makeRequest net "discover/movie" kwargs

/-- The keyword arguments `TMDbService.get_movies_by_genre` passes to
`discover_movies`: note the Python call site spells the vote-count filter
`vote_count_gte=50`, so the forwarded query-parameter key is the literal
string with an underscore, not `vote_count.gte`. -/
def TMDbService.moviesByGenreKwargs (genre_ids : List Int) (page : Int)
    (sort_by : String) : List (String × PVal) :=
  let genre_string := String.intercalate "," (genre_ids.map toString)
  [("with_genres", PVal.pstr genre_string), ("sort_by", PVal.pstr sort_by),
   ("page", PVal.pint page), ("vote_count_gte", PVal.pint 50)]

/-- Embeds `TMDbService.get_movies_by_genre`: comma-joins the genre ids and
delegates to `discover_movies`. -/
def TMDbService.get_movies_by_genre (s : TMDbService) (net : Net)
    (genre_ids : List Int) (page : Int) (sort_by : String) :
    Option (List (String × JVal)) :=
  s.discover_movies net (TMDbService.moviesByGenreKwargs genre_ids page sort_by)

/-! ### Serializers (`movies/serializers.py`), with DRF's raising semantics

Serialization runs inside `serializer.data`, which the views evaluate
inside their `try` blocks: a `ValueError` from an `int()`/`float()` field
coercion reaches the views' `except ValueError` branch, while `KeyError`
(required field missing from a dict instance), `AttributeError`
(attribute access on a non-mapping item) and `TypeError` (iterating a
non-iterable, coercing a container) reach `except Exception`. -/

/-- The exception classes that can escape DRF serialization, split by
which `except` branch of the views catches them. -/
inductive PyErr where
  | valueError : PyErr
  | otherError : PyErr
deriving DecidableEq, Repr

/-- Python truthiness of a decoded JSON value. -/
def jTruthy : JVal → Bool
  | JVal.jnull => false
  | JVal.jbool b => b
  | JVal.jnum q => q != 0
  | JVal.jstr s => !s.isEmpty
  | JVal.jarr l => !l.isEmpty
  | JVal.jobj l => !l.isEmpty

/-- Python `str()` of a decoded JSON value, as `CharField.to_representation`
and the f-strings of the URL methods apply it; `str()` never raises, and
the exact rendering of non-string values is not load-bearing, so container
renderings are abbreviated. -/
def pyStrOf : JVal → String
  | JVal.jstr s => s
  | JVal.jbool true => "True"
  | JVal.jbool false => "False"
  | JVal.jnull => "None"
  | JVal.jnum q => toString q
  | JVal.jarr _ => "<list>"
  | JVal.jobj _ => "<dict>"

/-- Python `int()` truncation toward zero of a rational. -/
def intOfRat (q : Rat) : Int :=
  if q < 0 then -((-q).floor) else q.floor

/-- Embeds `IntegerField.to_representation`, i.e. Python `int(value)`:
numbers truncate, booleans map to 0/1, strings must parse as integers
(`ValueError` otherwise), and containers or `None` raise `TypeError`. -/
def pyIntCoerce : JVal → Except PyErr Int
  | JVal.jnum q => .ok (intOfRat q)
  | JVal.jbool b => .ok (if b then 1 else 0)
  | JVal.jstr s =>
    match pyInt s with
    | some n => .ok n
    | none => .error .valueError
  | JVal.jnull => .error .otherError
  | JVal.jarr _ => .error .otherError
  | JVal.jobj _ => .error .otherError

/-- `pyIntCoerce` producing a JSON number. -/
def pyIntCoerceJ (v : JVal) : Except PyErr JVal :=
  (pyIntCoerce v).map (fun n => JVal.jnum (n : Rat))

/-- Embeds `FloatField.to_representation`, i.e. Python `float(value)`:
strings must be valid float literals (`ValueError` otherwise); the
non-finite literals inf/infinity/nan are accepted by `float()` but have no
rational value, so their (non-load-bearing) value stands in as 0. -/
def pyFloatCoerce : JVal → Except PyErr JVal
  | JVal.jnum q => .ok (JVal.jnum q)
  | JVal.jbool b => .ok (JVal.jnum (if b then 1 else 0))
  | JVal.jstr s =>
    if pyFloatValid s then
      let t := (pyStrip s).toLower
      let t := if t.startsWith "-" || t.startsWith "+" then t.drop 1 else t
      if t == "inf" || t == "infinity" || t == "nan" then .ok (JVal.jnum 0)
      else .ok (JVal.jnum (pyFloatOfStr s))
    else .error .valueError
  | JVal.jnull => .error .otherError
  | JVal.jarr _ => .error .otherError
  | JVal.jobj _ => .error .otherError

/-- Embeds `DateField.to_representation`: falsy values map to null, strings
pass through unchanged (ISO-formatted upstream), and a truthy non-string
has no `isoformat` attribute and raises. -/
def dateFieldRep (v : JVal) : Except PyErr JVal :=
  if !jTruthy v then .ok JVal.jnull
  else
    match v with
    | JVal.jstr s => .ok (JVal.jstr s)
    | _ => .error .otherError

/-- The string set DRF `BooleanField` treats as true. -/
def trueStrings : List String :=
  ["t", "T", "y", "Y", "yes", "Yes", "YES", "true", "True", "TRUE", "on", "On", "ON", "1"]

/-- The string set DRF `BooleanField` treats as false. -/
def falseStrings : List String :=
  ["f", "F", "n", "N", "no", "No", "NO", "false", "False", "FALSE", "off", "Off", "OFF", "0"]

/-- Embeds `BooleanField.to_representation`: the enumerated true/false
literals, the numbers 1 and 0, and otherwise Python `bool(value)`; never
raises. -/
def boolFieldRep (v : JVal) : JVal :=
  match v with
  | JVal.jbool b => JVal.jbool b
  | JVal.jstr s =>
    if s ∈ trueStrings then JVal.jbool true
    else if s ∈ falseStrings then JVal.jbool false
    else JVal.jbool (jTruthy v)
  | JVal.jnum q =>
    if q == 1 then JVal.jbool true
    else if q == 0 then JVal.jbool false
    else JVal.jbool (jTruthy v)
  | _ => JVal.jbool (jTruthy v)

/-- Embeds `CharField.to_representation`, i.e. `str(value)`; never raises. -/
def charFieldRep (v : JVal) : Except PyErr JVal :=
  .ok (JVal.jstr (pyStrOf v))

/-- Python iteration of a decoded JSON value, as list comprehensions over
serializer data perform it: arrays yield their items, strings their
characters, dicts their keys; other values raise `TypeError`. -/
def pyIterate : JVal → Except PyErr (List JVal)
  | JVal.jarr xs => .ok xs
  | JVal.jstr s => .ok (s.data.map (fun c => JVal.jstr (String.mk [c])))
  | JVal.jobj fs => .ok (fs.map (fun f => JVal.jstr f.1))
  | _ => .error .otherError

/-- Embeds DRF `Field.get_attribute` on a dict instance: a present key
yields its value; a missing key yields the declared default if any, else
null for `allow_null` fields, else `SkipField` (here `none`) when not
required, else the `KeyError` is re-raised. -/
def getFieldAttr (obj : List (String × JVal)) (k : String) (dflt : Option JVal)
    (allow_null : Bool) (required : Bool) : Except PyErr (Option JVal) :=
  match dictGet obj k with
  | some v => .ok (some v)
  | none =>
    match dflt with
    | some d => .ok (some d)
    | none =>
      if allow_null then .ok (some JVal.jnull)
      else if !required then .ok none
      else .error .otherError

/-- One field of `Serializer.to_representation`: fetch the attribute,
omit on `SkipField`, emit null without coercion when the attribute is
null, and otherwise emit the field's `to_representation` of it. -/
def emitField (obj : List (String × JVal)) (k : String) (dflt : Option JVal)
    (allow_null : Bool) (required : Bool) (rep : JVal → Except PyErr JVal) :
    Except PyErr (Option (String × JVal)) := do
  match ← getFieldAttr obj k dflt allow_null required with
  | none => pure none
  | some JVal.jnull => pure (some (k, JVal.jnull))
  | some v => do
    let r ← rep v
    pure (some (k, r))

/-- Embeds `ListField(child=IntegerField()).to_representation`: iterate the
value, keep null items as null, coerce the rest through `int()`. -/
def listIntRep (v : JVal) : Except PyErr JVal := do
  let items ← pyIterate v
  let out ← items.mapM (fun it =>
    match it with
    | JVal.jnull => pure JVal.jnull
    | _ => pyIntCoerceJ it)
  pure (JVal.jarr out)

/-- Embeds `TMDbMovieSerializer.get_poster_url`: an absolute image URL when
the path fragment is truthy, null otherwise. -/
def posterUrlOf (obj : List (String × JVal)) : JVal :=
  match dictGet obj "poster_path" with
  | some v =>
    if jTruthy v then JVal.jstr ("https://image.tmdb.org/t/p/w500" ++ pyStrOf v)
    else JVal.jnull
  | none => JVal.jnull

/-- Embeds `TMDbMovieSerializer.get_backdrop_url`. -/
def backdropUrlOf (obj : List (String × JVal)) : JVal :=
  match dictGet obj "backdrop_path" with
  | some v =>
    if jTruthy v then JVal.jstr ("https://image.tmdb.org/t/p/w1280" ++ pyStrOf v)
    else JVal.jnull
  | none => JVal.jnull

/-- Embeds `TMDbMovieSerializer.to_representation` on one dict item: the
declared fields in declaration order with their declared kwargs — `id` and
`title` are required (a missing one raises), `release_date`,
`vote_average`, `popularity`, `poster_path` and `backdrop_path` carry
`allow_null`, `vote_count`/`adult`/`video`/`genre_ids` carry defaults, the
remaining `required=False` fields are skipped when absent — plus the two
computed URL fields. -/
def tmdbMovieItem (obj : List (String × JVal)) :
    Except PyErr (List (String × JVal)) := do
  let fs ← ([emitField obj "id" none false true pyIntCoerceJ,
             emitField obj "title" none false true charFieldRep,
             emitField obj "original_title" none false false charFieldRep,
             emitField obj "overview" none false false charFieldRep,
             emitField obj "release_date" none true false dateFieldRep,
             emitField obj "vote_average" none true false pyFloatCoerce,
             emitField obj "vote_count" (some (JVal.jnum 0)) false false pyIntCoerceJ,
             emitField obj "popularity" none true false pyFloatCoerce,
             emitField obj "poster_path" none true false charFieldRep,
             emitField obj "backdrop_path" none true false charFieldRep,
             emitField obj "adult" (some (JVal.jbool false)) false false
               (fun v => .ok (boolFieldRep v)),
             emitField obj "video" (some (JVal.jbool false)) false false
               (fun v => .ok (boolFieldRep v)),
             emitField obj "original_language" none false false charFieldRep,
             emitField obj "genre_ids" (some (JVal.jarr [])) false false listIntRep] :
            List (Except PyErr (Option (String × JVal)))).mapM id
  pure (fs.filterMap id ++
        [("poster_url", posterUrlOf obj), ("backdrop_url", backdropUrlOf obj)])

/-- The output of the movie serializer on a `None` item: `get_attribute`
returns `None` for every field of a `None` instance, so every key is
emitted as null. -/
def allNullMovieItem : List (String × JVal) :=
  [("id", JVal.jnull), ("title", JVal.jnull), ("original_title", JVal.jnull),
   ("overview", JVal.jnull), ("release_date", JVal.jnull), ("vote_average", JVal.jnull),
   ("vote_count", JVal.jnull), ("popularity", JVal.jnull), ("poster_path", JVal.jnull),
   ("backdrop_path", JVal.jnull), ("adult", JVal.jnull), ("video", JVal.jnull),
   ("original_language", JVal.jnull), ("genre_ids", JVal.jnull),
   ("poster_url", JVal.jnull), ("backdrop_url", JVal.jnull)]

/-- Serialization of one result item: dict items go through the field
loop, a `None` item serializes to an all-null dict, and any other item
raises `AttributeError` on the first required attribute access. -/
def serializeMovieItem : JVal → Except PyErr (List (String × JVal))
  | JVal.jobj obj => tmdbMovieItem obj
  | JVal.jnull => .ok allNullMovieItem
  | _ => .error .otherError

/-- Embeds `TMDbMovieSerializer(results, many=True).data`: iterate the
payload (raising for non-iterables) and serialize each item. -/
def tmdbSerializeMany (v : JVal) : Except PyErr JVal := do
  let items ← pyIterate v
  let out ← items.mapM serializeMovieItem
  pure (JVal.jarr (out.map JVal.jobj))

/-- Embeds `ListField(child=DictField()).to_representation`: null items
stay null, dict items pass through (the default child field is
unvalidated), and any other item has no `items()` and raises. -/
def listDictRep (v : JVal) : Except PyErr JVal := do
  let items ← pyIterate v
  let out ← items.mapM (fun it =>
    match it with
    | JVal.jnull => pure JVal.jnull
    | JVal.jobj fs => pure (JVal.jobj fs)
    | _ => .error PyErr.otherError)
  pure (JVal.jarr out)

/-- Embeds `TMDbMovieDetailSerializer.to_representation`: the inherited
fields followed by the detail-only fields — `runtime`, `budget` and
`revenue` are nullable integers, the text fields are skipped when absent,
and the four list-of-dict fields default to empty lists. -/
def tmdbMovieDetailItem (obj : List (String × JVal)) :
    Except PyErr (List (String × JVal)) := do
  let base ← tmdbMovieItem obj
  let extra ← ([emitField obj "runtime" none true false pyIntCoerceJ,
                emitField obj "budget" none true false pyIntCoerceJ,
                emitField obj "revenue" none true false pyIntCoerceJ,
                emitField obj "tagline" none false false charFieldRep,
                emitField obj "homepage" none false false charFieldRep,
                emitField obj "imdb_id" none false false charFieldRep,
                emitField obj "status" none false false charFieldRep,
                emitField obj "genres" (some (JVal.jarr [])) false false listDictRep,
                emitField obj "production_companies" (some (JVal.jarr [])) false false listDictRep,
                emitField obj "production_countries" (some (JVal.jarr [])) false false listDictRep,
                emitField obj "spoken_languages" (some (JVal.jarr [])) false false listDictRep] :
               List (Except PyErr (Option (String × JVal)))).mapM id
  pure (base ++ extra.filterMap id)

/-! ### Proxy views (`movies/views.py`) -/

/-- An HTTP response produced by a view: status code and JSON object body. -/
structure HttpResponse where
  status : Nat
  body : List (String × JVal)

/-- Embeds `TMDbAPIBaseMixin.handle_tmdb_response`: a falsy value (`None` or an
empty dict) yields 503; otherwise the vendor body is reshaped into the
uniform `{results, page, total_pages, total_results}` envelope, with
defaults `[]`, `1`, `1`, `0` for keys the vendor omitted.  The serializer
runs while the envelope is built, so a serialization exception propagates
out of this method into the calling view's `except` branches. -/
def handle_tmdb_response (data : Option (List (String × JVal))) :
    Except PyErr HttpResponse :=
  match data with
  | none =>
    .ok ⟨503, [("error", JVal.jstr "Unable to fetch data from TMDb API")]⟩
  | some d =>
    if d.isEmpty then
      .ok ⟨503, [("error", JVal.jstr "Unable to fetch data from TMDb API")]⟩
    else
      match tmdbSerializeMany ((dictGet d "results").getD (JVal.jarr [])) with
      | .error e => .error e
      | .ok rs =>
        .ok ⟨200, [("results", rs),
                   ("page", (dictGet d "page").getD (JVal.jnum 1)),
                   ("total_pages", (dictGet d "total_pages").getD (JVal.jnum 1)),
                   ("total_results", (dictGet d "total_results").getD (JVal.jnum 0))]⟩

/-- The 500 response every view returns when `TMDbService()` raises. -/
def configErrorResponse (e : String) : HttpResponse :=
  ⟨500, [("error", JVal.jstr ("TMDb API configuration error: " ++ e))]⟩

/-- The 400 response of the `except ValueError` branch of the page-taking
views. -/
def invalidPageResponse : HttpResponse :=
  ⟨400, [("error", JVal.jstr "Invalid page number")]⟩

/-- The 500 response of the views' generic `except Exception` branch; its
body is `{"error": str(e)}`, whose message string is not modelled. -/
def internalError : HttpResponse :=
  ⟨500, [("error", JVal.jstr "Internal server error")]⟩

/-- The `try/except` mapping of the views around the vendor call and the
serializer-evaluating reshaping: a `ValueError` lands in the view's
`except ValueError` response, every other exception in `except Exception`
(500). -/
def runView (onValueError : HttpResponse) (onError : HttpResponse)
    (r : Except PyErr HttpResponse) : HttpResponse :=
  match r with
  | .ok resp => resp
  | .error PyErr.valueError => onValueError
  | .error PyErr.otherError => onError

/-- Embeds `int(request.GET.get("page", 1))`: the integer default short-circuits
the conversion, a supplied string goes through `int`. -/
def pageArg (query : List (String × String)) : Option Int :=
  match qget query "page" with
  | none => some 1
  | some s => pyInt s

/-- Embeds `PopularMoviesAPIView.get`. -/
def PopularMoviesAPIView.get (env : Env) (query : List (String × String))
    (net : Net) : HttpResponse :=
  match TMDbService.init env with
  | .error e => configErrorResponse e
  | .ok svc =>
    match pageArg query with
    | none => invalidPageResponse
    | some page =>
      runView invalidPageResponse internalError
        (handle_tmdb_response (svc.get_popular_movies net page))

/-- Embeds `TopRatedMoviesAPIView.get`. -/
def TopRatedMoviesAPIView.get (env : Env) (query : List (String × String))
    (net : Net) : HttpResponse :=
  match TMDbService.init env with
  | .error e => configErrorResponse e
  | .ok svc =>
    match pageArg query with
    | none => invalidPageResponse
    | some page =>
      runView invalidPageResponse internalError
        (handle_tmdb_response (svc.get_top_rated_movies net page))

/-- Embeds `NowPlayingMoviesAPIView.get`. -/
def NowPlayingMoviesAPIView.get (env : Env) (query : List (String × String))
    (net : Net) : HttpResponse :=
  match TMDbService.init env with
  | .error e => configErrorResponse e
  | .ok svc =>
    match pageArg query with
    | none => invalidPageResponse
    | some page =>
      runView invalidPageResponse internalError
        (handle_tmdb_response (svc.get_now_playing_movies net page))

/-- Embeds `UpcomingMoviesAPIView.get`. -/
def UpcomingMoviesAPIView.get (env : Env) (query : List (String × String))
    (net : Net) : HttpResponse :=
  match TMDbService.init env with
  | .error e => configErrorResponse e
  | .ok svc =>
    match pageArg query with
    | none => invalidPageResponse
    | some page =>
      runView invalidPageResponse internalError
        (handle_tmdb_response (svc.get_upcoming_movies net page))

/-- Python's `if not data: return err` guard followed by a use of the
truthy data: several views test the vendor result for falsiness (absent or
empty dict) and return their own error response before consuming it; the
consumption may itself raise during serialization. -/
def falsyOr (err : HttpResponse) (data : Option (List (String × JVal)))
    (k : List (String × JVal) → Except PyErr HttpResponse) :
    Except PyErr HttpResponse :=
  match data with
  | none => .ok err
  | some d => if d.isEmpty then .ok err else k d

/-- Embeds `SearchMoviesAPIView.get`: the blank-query check runs before the
service is constructed; the view pre-checks falsy data with its own 503
before reshaping, then appends the echoed query string. -/
def SearchMoviesAPIView.get (env : Env) (query : List (String × String))
    (net : Net) : HttpResponse :=
  let q := pyStrip ((qget query "q").getD "")
  if q.isEmpty then
    ⟨400, [("error", JVal.jstr "Query parameter q is required")]⟩
  else
    match TMDbService.init env with
    | .error e => configErrorResponse e
    | .ok svc =>
      match pageArg query with
      | none => invalidPageResponse
      | some page =>
        runView invalidPageResponse internalError
          (falsyOr ⟨503, [("error", JVal.jstr "Unable to perform search")]⟩
            (svc.search_movies net q page)
            (fun d => (handle_tmdb_response (some d)).map
              (fun r => ⟨200, r.body ++ [("query", JVal.jstr q)]⟩)))

/-- Embeds `TMDbMovieDetailAPIView.get`: falsy vendor data yields 404 instead of
503; otherwise the detail serializer output is returned. -/
def TMDbMovieDetailAPIView.get (env : Env) (tmdb_id : Int) (net : Net) :
    HttpResponse :=
  match TMDbService.init env with
  | .error e => configErrorResponse e
  | .ok svc =>
    runView internalError internalError
      (falsyOr ⟨404, [("error", JVal.jstr "Movie not found")]⟩
        (svc.get_movie_details net tmdb_id)
        (fun d => (tmdbMovieDetailItem d).map (fun body => ⟨200, body⟩)))

/-- Embeds `TMDbGenresAPIView.get`: returns the vendor body untouched. -/
def TMDbGenresAPIView.get (env : Env) (net : Net) : HttpResponse :=
  match TMDbService.init env with
  | .error e => configErrorResponse e
  | .ok svc =>
    runView internalError internalError
      (falsyOr ⟨503, [("error", JVal.jstr "Unable to fetch genres from TMDb API")]⟩
        (svc.get_genres net)
        (fun d => .ok ⟨200, d⟩))

/-- Embeds `SimilarMoviesAPIView.get`: falsy vendor data yields 404. -/
def SimilarMoviesAPIView.get (env : Env) (movie_id : Int)
    (query : List (String × String)) (net : Net) : HttpResponse :=
  match TMDbService.init env with
  | .error e => configErrorResponse e
  | .ok svc =>
    match pageArg query with
    | none => invalidPageResponse
    | some page =>
      runView invalidPageResponse internalError
        (falsyOr ⟨404, [("error", JVal.jstr "Movie not found or no similar movies available")]⟩
          (svc.get_similar_movies net movie_id page)
          (fun d => handle_tmdb_response (some d)))

/-- Embeds `MovieRecommendationsAPIView.get`: falsy vendor data yields 404. -/
def MovieRecommendationsAPIView.get (env : Env) (movie_id : Int)
    (query : List (String × String)) (net : Net) : HttpResponse :=
  match TMDbService.init env with
  | .error e => configErrorResponse e
  | .ok svc =>
    match pageArg query with
    | none => invalidPageResponse
    | some page =>
      runView invalidPageResponse internalError
        (falsyOr ⟨404, [("error", JVal.jstr "Movie not found or no recommendations available")]⟩
          (svc.get_movie_recommendations net movie_id page)
          (fun d => handle_tmdb_response (some d)))

/-- Embeds `TrendingMoviesAPIView.get`: validates the time window against
`{"day", "week"}` before parsing the page. -/
def TrendingMoviesAPIView.get (env : Env) (query : List (String × String))
    (net : Net) : HttpResponse :=
  match TMDbService.init env with
  | .error e => configErrorResponse e
  | .ok svc =>
    let time_window := (qget query "time_window").getD "day"
    if time_window ≠ "day" ∧ time_window ≠ "week" then
      ⟨400, [("error", JVal.jstr "time_window must be day or week")]⟩
    else
      match pageArg query with
      | none => invalidPageResponse
      | some page =>
        runView invalidPageResponse internalError
          (falsyOr ⟨503, [("error", JVal.jstr "Unable to fetch trending movies")]⟩
            (svc.get_trending_movies net time_window page)
            (fun d => handle_tmdb_response (some d)))

/-- The sort keys accepted by the by-genre and discover views. -/
def validSorts : List String :=
  ["popularity.desc", "vote_average.desc", "release_date.desc", "revenue.desc"]

/-- Embeds `[int(genre_id.strip()) for genre_id in genres_param.split(",")]`:
`none` models the `ValueError` a non-numeric component raises. -/
def parseGenreIds (genres_param : String) : Option (List Int) :=
  ((splitOnChar ',' genres_param.data).map String.mk).mapM (fun g => pyInt (pyStrip g))

/-- Embeds `MoviesByGenreAPIView.get`: requires a truthy `genres` parameter,
parses the comma-separated ids, validates the sort key, then delegates to
`get_movies_by_genre` (the `except ValueError` branch covers both the id
list and the page number). -/
def MoviesByGenreAPIView.get (env : Env) (query : List (String × String))
    (net : Net) : HttpResponse :=
  match TMDbService.init env with
  | .error e => configErrorResponse e
  | .ok svc =>
    let genres_param := pyStrip ((qget query "genres").getD "")
    if genres_param.isEmpty then
      ⟨400, [("error", JVal.jstr "genres parameter is required (comma-separated genre IDs)")]⟩
    else
      match parseGenreIds genres_param with
      | none => ⟨400, [("error", JVal.jstr "Invalid genre IDs or page number")]⟩
      | some genre_ids =>
        let sort_by := (qget query "sort_by").getD "popularity.desc"
        if sort_by ∉ validSorts then
          ⟨400, [("error", JVal.jstr "sort_by must be one of the valid sorts")]⟩
        else
          match pageArg query with
          | none => ⟨400, [("error", JVal.jstr "Invalid genre IDs or page number")]⟩
          | some page =>
            runView ⟨400, [("error", JVal.jstr "Invalid genre IDs or page number")]⟩ internalError
              (falsyOr ⟨503, [("error", JVal.jstr "Unable to fetch movies for the specified genres")]⟩
                (svc.get_movies_by_genre net genre_ids page sort_by)
                (fun d => handle_tmdb_response (some d)))

/-- The outcome of the parameter-building block of `DiscoverMoviesAPIView.get`:
a `ValueError` from `int`/`float` (400 "Invalid parameter value"), an
invalid sort key (its own 400), or the assembled keyword arguments. -/
inductive DiscoverParse where
  | badValue : DiscoverParse
  | badSort : DiscoverParse
  | okParams : List (String × PVal) → DiscoverParse
deriving DecidableEq, Repr

/-- The `discover_params` assembly of `DiscoverMoviesAPIView.get`, in
source order: truthy `with_genres` forwarded verbatim, truthy
`primary_release_year` through `int`, truthy `vote_average_gte` through
`float` (key `vote_average.gte`), `vote_count_gte` through `int` with
default 50 (key `vote_count.gte`), the validated `sort_by`, and the page. -/
def buildDiscoverParams (query : List (String × String)) : DiscoverParse :=
  let p : List (String × PVal) :=
    match qget query "with_genres" with
    | some g => if g.isEmpty then [] else [("with_genres", PVal.pstr g)]
    | none => []
  let yearStep : Option (List (String × PVal)) :=
    match qget query "primary_release_year" with
    | some y =>
      if y.isEmpty then some p
      else (pyInt y).map (fun n => p ++ [("primary_release_year", PVal.pint n)])
    | none => some p
  match yearStep with
  | none => DiscoverParse.badValue
  | some p =>
    let ratingStep : Option (List (String × PVal)) :=
      match qget query "vote_average_gte" with
      | some r =>
        if r.isEmpty then some p
        else if pyFloatValid r then some (p ++ [("vote_average.gte", PVal.pfloat r)])
        else none
      | none => some p
    match ratingStep with
    | none => DiscoverParse.badValue
    | some p =>
      match pyInt ((qget query "vote_count_gte").getD "50") with
      | none => DiscoverParse.badValue
      | some min_votes =>
        let p := p ++ [("vote_count.gte", PVal.pint min_votes)]
        let sort_by := (qget query "sort_by").getD "popularity.desc"
        if sort_by ∉ validSorts then DiscoverParse.badSort
        else
          let p := p ++ [("sort_by", PVal.pstr sort_by)]
          match pageArg query with
          | none => DiscoverParse.badValue
          | some page => DiscoverParse.okParams (p ++ [("page", PVal.pint page)])

/-- Embeds `DiscoverMoviesAPIView.get`. -/
def DiscoverMoviesAPIView.get (env : Env) (query : List (String × String))
    (net : Net) : HttpResponse :=
  match TMDbService.init env with
  | .error e => configErrorResponse e
  | .ok svc =>
    match buildDiscoverParams query with
    | DiscoverParse.badValue => ⟨400, [("error", JVal.jstr "Invalid parameter value")]⟩
    | DiscoverParse.badSort => ⟨400, [("error", JVal.jstr "sort_by must be one of the valid sorts")]⟩
    | DiscoverParse.okParams discover_params =>
      runView ⟨400, [("error", JVal.jstr "Invalid parameter value")]⟩ internalError
        (falsyOr ⟨503, [("error", JVal.jstr "Unable to discover movies with the specified criteria")]⟩
          (svc.discover_movies net discover_params)
          (fun d => handle_tmdb_response (some d)))

/-! ### Local store (`movies/models.py`) and sync reconcilers
(`movies/management/commands/`) -/

/-- A calendar date as produced by
`datetime.strptime(s, "%Y-%m-%d").date()`. -/
structure Date where
  year : Nat
  month : Nat
  day : Nat
deriving DecidableEq, Repr

/-- Gregorian leap year, as `datetime` validates day-of-month. -/
def isLeap (y : Nat) : Bool :=
  (y % 4 == 0 && y % 100 != 0) || y % 400 == 0

/-- Days in a month, as `datetime.date` validates. -/
def daysInMonth (y m : Nat) : Nat :=
  if m == 2 then (if isLeap y then 29 else 28)
  else if m == 4 || m == 6 || m == 9 || m == 11 then 30
  else 31

/-- Embeds `datetime.strptime(s, "%Y-%m-%d").date()` as a partial function:
CPython's `_strptime` matches `%Y` as exactly four digits, `%m` and `%d`
as one or two digits, the literal dashes in between, and the whole string;
`datetime.date` then validates year ≥ 1, month 1..12 and the
day-of-month against the calendar.  `none` models the `ValueError` the
sync command catches. -/
def parseDate (s : String) : Option Date :=
  match splitOnChar '-' s.data with
  | [ys, ms, ds] =>
    if ys.length == 4 && ys.all Char.isDigit
        && decide (0 < ms.length) && decide (ms.length ≤ 2) && ms.all Char.isDigit
        && decide (0 < ds.length) && decide (ds.length ≤ 2) && ds.all Char.isDigit then
      let y := charsToNat ys
      let m := charsToNat ms
      let d := charsToNat ds
      if decide (1 ≤ y) && decide (1 ≤ m) && decide (m ≤ 12) && decide (1 ≤ d)
          && decide (d ≤ daysInMonth y m) then
        some ⟨y, m, d⟩
      else
        none
    else
      none
  | _ => none

/-- The `Genre` model: unique TMDb id and a display name. -/
structure Genre where
  tmdb_id : Int
  name : String
deriving DecidableEq, Repr

/-- The ids present in the local genre table. -/
def genreIds (store : List Genre) : List Int :=
  store.map (·.tmdb_id)

/-- Embeds `Genre.objects.update_or_create(tmdb_id=..., defaults={"name": ...})`:
overwrite the name of the row keyed by the remote id, or insert a new row;
the boolean is Django's `created` flag. -/
def upsertGenre (store : List Genre) (tmdb_id : Int) (name : String) :
    List Genre × Bool :=
  if store.any (fun g => g.tmdb_id == tmdb_id) then
    (store.map (fun g => if g.tmdb_id == tmdb_id then { g with name := name } else g),
     false)
  else
    (store ++ [⟨tmdb_id, name⟩], true)

/-- The per-genre loop of `sync_genres.Command.handle` over the remote
`(id, name)` records: returns the final store and the accumulated
`(created_count, updated_count)`. -/
def syncGenresList : List Genre → List (Int × String) → List Genre × Nat × Nat
  | store, [] => (store, 0, 0)
  | store, (i, n) :: rest =>
    let step := upsertGenre store i n
    let restResult := syncGenresList step.1 rest
    (restResult.1,
     (if step.2 then 1 else 0) + restResult.2.1,
     (if step.2 then 0 else 1) + restResult.2.2)

/-- One movie record of a TMDb "popular movies" page, with the fields
`sync_popular_movies.Command.handle` reads; `id` is accessed with
`movie_data["id"]` (required), everything else through `.get`. -/
structure MovieRecord where
  id : Int
  title : Option String
  original_title : Option String
  overview : Option String
  release_date : Option String
  vote_average : Option Rat
  vote_count : Option Int
  popularity : Option Rat
  poster_path : Option String
  backdrop_path : Option String
  adult : Option Bool
  video : Option Bool
  original_language : Option String
  genre_ids : Option (List Int)
deriving DecidableEq, Repr

/-- The `Movie` row as stored by the sync command (the scalar fields it
writes; `vote_average` and `popularity` are nullable in the model, see
`movies/models.py`). -/
structure MovieRow where
  tmdb_id : Int
  title : String
  original_title : String
  overview : String
  release_date : Option Date
  vote_average : Option Rat
  vote_count : Int
  popularity : Option Rat
  poster_path : String
  backdrop_path : String
  adult : Bool
  video : Bool
  original_language : String
deriving DecidableEq, Repr

/-- The `defaults={...}` dict of the movie `update_or_create` call:
`.get(key, fallback)` for the string/bool/`vote_count` fields, plain
`.get(key)` (so `None` when absent) for `vote_average` and `popularity`. -/
def movieDefaults (rec : MovieRecord) (release_date : Option Date) (tid : Int) :
    MovieRow :=
  { tmdb_id := tid
    title := rec.title.getD ""
    original_title := rec.original_title.getD ""
    overview := rec.overview.getD ""
    release_date := release_date
    vote_average := rec.vote_average
    vote_count := rec.vote_count.getD 0
    popularity := rec.popularity
    poster_path := rec.poster_path.getD ""
    backdrop_path := rec.backdrop_path.getD ""
    adult := rec.adult.getD false
    video := rec.video.getD false
    original_language := rec.original_language.getD "" }

/-- Embeds `Movie.objects.update_or_create(tmdb_id=movie_data["id"], defaults=...)`. -/
def upsertMovie (movies : List MovieRow) (rec : MovieRecord)
    (release_date : Option Date) : List MovieRow × Bool :=
  if movies.any (fun m => m.tmdb_id == rec.id) then
    (movies.map (fun m =>
       if m.tmdb_id == rec.id then movieDefaults rec release_date m.tmdb_id else m),
     false)
  else
    (movies ++ [movieDefaults rec release_date rec.id], true)

/-- The inner genre-link loop of the movie sync: for each genre id, a
missing local genre is warned about and skipped
(`except Genre.DoesNotExist`), while creating a duplicate `(movie, genre)`
link violates the `unique_together` constraint, and the raised
`IntegrityError` escapes to the per-movie handler, aborting the remaining
links of this movie. -/
def createLinks (genres : List Genre) (links : List (Int × Int)) (mid : Int) :
    List Int → List (Int × Int)
  | [] => links
  | g :: rest =>
    if genres.any (fun x => x.tmdb_id == g) then
      if (mid, g) ∈ links then
        links
      else
        createLinks genres (links ++ [(mid, g)]) mid rest
    else
      createLinks genres links mid rest

/-- The local store the movie sync touches: movie rows, genre rows and
`MovieGenre` links as `(movie tmdb_id, genre tmdb_id)` pairs. -/
structure DB where
  movies : List MovieRow
  genres : List Genre
  links : List (Int × Int)
deriving Repr

/-- One iteration of the per-movie loop of
`sync_popular_movies.Command.handle`: parse the release date (invalid or
falsy strings fall back to no date), upsert the movie row, and — only when
the record carries a truthy (nonempty) `genre_ids` list — delete all
existing links of this movie and recreate one per supplied id.  The
`created` flag of the upsert is returned alongside. -/
def processMovie (db : DB) (rec : MovieRecord) : DB × Bool :=
  let release_date : Option Date :=
    match rec.release_date with
    | some s => if s.isEmpty then none else parseDate s
    | none => none
  let up := upsertMovie db.movies rec release_date
  let links :=
    match rec.genre_ids with
    | some gids =>
      if gids.isEmpty then
        db.links
      else
        createLinks db.genres (db.links.filter (fun l => !(l.1 == rec.id))) rec.id gids
    | none => db.links
  ({ db with movies := up.1, links := links }, up.2)

/-! ### Shared concrete fixtures and helper lemmas -/

/-- A bearer-configured service instance, as `TMDbService()` builds it from
an environment carrying only `TMDB_BEARER_TOKEN`. -/
def svc0 : TMDbService :=
  ⟨none, some "token", "https://api.themoviedb.org/3"⟩

/-- A bearer-only environment. -/
def envBearer : Env := ⟨none, some "token", none⟩

/-- A credential-less environment. -/
def envNone : Env := ⟨none, none, none⟩

/-- A network on which every request fails at the transport level. -/
def netFail : Net := fun _ => FetchResult.transportError

/-- A source record carrying only the required `id`, every optional field
absent. -/
def blankRecord (i : Int) : MovieRecord :=
  ⟨i, none, none, none, none, none, none, none, none, none, none, none, none, none⟩

/-- A record with a malformed release date, used by the C6 witness. -/
def recBad : MovieRecord :=
  { blankRecord 42 with title := some "T", release_date := some "not-a-date" }

/-- A network answering every request with a well-formed empty result
page. -/
def netOk : Net := fun _ =>
  FetchResult.fetchOk 200 (some [("results", JVal.jarr []), ("page", JVal.jnum 1),
    ("total_pages", JVal.jnum 1), ("total_results", JVal.jnum 0)])

/-- A network whose result items lack the required `id` field, making DRF
serialization raise `KeyError`. -/
def netBadItem : Net := fun _ =>
  FetchResult.fetchOk 200 (some [("results", JVal.jarr [JVal.jobj []])])

/-- A network whose result item carries a non-numeric `id`, making the
`IntegerField` coercion raise `ValueError`. -/
def netBadValue : Net := fun _ =>
  FetchResult.fetchOk 200
    (some [("results", JVal.jarr [JVal.jobj [("id", JVal.jstr "abc")]])])

theorem init_ok (env : Env)
    (h : truthy env.bearer_token = true ∨ truthy env.api_key = true) :
    TMDbService.init env =
      .ok ⟨env.api_key, env.bearer_token,
           env.base_url.getD "https://api.themoviedb.org/3"⟩ := by
  unfold TMDbService.init
  rcases h with h | h <;> simp [h]

theorem init_error (env : Env) (hb : truthy env.bearer_token = false)
    (ha : truthy env.api_key = false) :
    TMDbService.init env =
      .error "Either TMDB_BEARER_TOKEN or TMDB_API_KEY environment variable is required" := by
  unfold TMDbService.init
  simp [hb, ha]

theorem handle_tmdb_response_falsy (d : List (String × JVal)) (h : d.isEmpty = true) :
    handle_tmdb_response (some d) =
      .ok ⟨503, [("error", JVal.jstr "Unable to fetch data from TMDb API")]⟩ := by
  unfold handle_tmdb_response
  simp [h]

/-! ### C5 — failure normalization in `_make_request` -/

/-- C8 (confirmed): construction fails exactly when neither credential is
truthy; with a bearer token the `Authorization` header is attached and the
query parameters are left untouched, otherwise the API key is appended as
a query parameter and no `Authorization` header is sent. -/
theorem c8_confirmed (env : Env) :
    ((∃ e, TMDbService.init env = .error e) ↔
      truthy env.bearer_token = false ∧ truthy env.api_key = false) ∧
    ∀ svc, TMDbService.init env = .ok svc → ∀ endpoint params,
      (truthy env.bearer_token = true →
        (svc.buildRequest endpoint params).params = params ∧
        ("Authorization", "Bearer " ++ env.bearer_token.getD "")
          ∈ (svc.buildRequest endpoint params).headers) ∧
      (truthy env.bearer_token = false →
        (svc.buildRequest endpoint params).params
          = params ++ [("api_key", PVal.pstr (env.api_key.getD ""))] ∧
        "Authorization" ∉ (svc.buildRequest endpoint params).headers.map Prod.fst) := by
  constructor
  · constructor
    · intro ⟨e, he⟩
      by_contra hcon
      rw [TMDbService.init] at he
      by_cases hb : truthy env.bearer_token <;> by_cases ha : truthy env.api_key <;>
        simp [hb, ha] at he hcon
    · intro ⟨hb, ha⟩
      exact ⟨_, init_error env hb ha⟩
  · intro svc hsvc endpoint params
    by_cases hb : truthy env.bearer_token
    · rw [init_ok env (Or.inl hb)] at hsvc
      cases hsvc
      constructor
      · intro _
        constructor
        · unfold TMDbService.buildRequest
          simp [hb]
        · unfold TMDbService.buildRequest TMDbService.getHeaders
          simp [hb]
      · intro hfalse
        rw [hb] at hfalse
        exact absurd hfalse (by decide)
    · rw [Bool.not_eq_true] at hb
      by_cases ha : truthy env.api_key
      · rw [init_ok env (Or.inr ha)] at hsvc
        cases hsvc
        constructor
        · intro htrue
          rw [hb] at htrue
          exact absurd htrue (by decide)
        · intro _
          constructor
          · unfold TMDbService.buildRequest
            simp [hb, ha]
          · unfold TMDbService.buildRequest TMDbService.getHeaders
            simp [hb]
      · rw [Bool.not_eq_true] at ha
        rw [init_error env hb ha] at hsvc
        cases hsvc

/-- C8 witness: with only an API key configured the key is appended as a
query parameter, and with no credential at all construction fails. -/
theorem c8_witness :
    ((⟨some "k", none, "https://api.themoviedb.org/3"⟩ : TMDbService).buildRequest
        "movie/popular" []).params = [("api_key", PVal.pstr "k")] ∧
    (∃ e, TMDbService.init envNone = .error e) := by
  constructor
  · exact (((c8_confirmed ⟨some "k", none, none⟩).2 _ rfl "movie/popular" []).2 rfl).1
  · exact (c8_confirmed envNone).1.mpr ⟨rfl, rfl⟩

/-! ### C2 — the by-genre convenience wrapper's forwarded parameters -/

/-- C2 (code_bug): the by-genre wrapper does forward `with_genres` as the
comma-joined id list, the given `sort_by` and `page` — but the vote-count
floor is forwarded under the literal key `vote_count_gte` (the Python
keyword-argument spelling), not the TMDb parameter `vote_count.gte` that
the spec, the `discover_movies` docstring and the discover view all use,
so no vote-count floor reaches the vendor. -/
theorem c2_code_bug :
    TMDbService.moviesByGenreKwargs [28, 12] 1 "vote_average.desc" =
      [("with_genres", PVal.pstr "28,12"), ("sort_by", PVal.pstr "vote_average.desc"),
       ("page", PVal.pint 1), ("vote_count_gte", PVal.pint 50)] ∧
    "vote_count.gte" ∉
      (TMDbService.moviesByGenreKwargs [28, 12] 1 "vote_average.desc").map Prod.fst ∧
    ∀ net : Net, svc0.get_movies_by_genre net [28, 12] 1 "vote_average.desc" =
      interpretFetch (net (svc0.buildRequest "discover/movie"
        (TMDbService.moviesByGenreKwargs [28, 12] 1 "vote_average.desc"))) := by
  refine ⟨rfl, by decide, fun net => rfl⟩

/-! ### C10 — envelope reshaping of non-absent vendor data -/

theorem genreIds_update (store : List Genre) (i : Int) (n : String) :
    genreIds (store.map (fun g => if g.tmdb_id == i then { g with name := n } else g))
      = genreIds store := by
  induction store with
  | nil => rfl
  | cons g gs ih =>
    simp only [genreIds, List.map_cons] at ih ⊢
    rw [ih]
    by_cases hg : g.tmdb_id == i <;> simp [hg]

theorem mem_genreIds_iff (store : List Genre) (i : Int) :
    i ∈ genreIds store ↔ store.any (fun g => g.tmdb_id == i) = true := by
  rw [List.any_eq_true]
  unfold genreIds
  rw [List.mem_map]
  constructor
  · rintro ⟨g, hg, he⟩
    exact ⟨g, hg, beq_iff_eq.mpr he⟩
  · rintro ⟨g, hg, he⟩
    exact ⟨g, hg, beq_iff_eq.mp he⟩

theorem upsert_present (store : List Genre) (i : Int) (n : String)
    (h : i ∈ genreIds store) :
    (upsertGenre store i n).2 = false ∧
    genreIds (upsertGenre store i n).1 = genreIds store := by
  unfold upsertGenre
  rw [if_pos ((mem_genreIds_iff store i).mp h)]
  exact ⟨rfl, genreIds_update store i n⟩

theorem upsert_mem (store : List Genre) (i : Int) (n : String) (j : Int)
    (h : j ∈ genreIds store) : j ∈ genreIds (upsertGenre store i n).1 := by
  unfold upsertGenre
  by_cases hc : store.any (fun g => g.tmdb_id == i) = true
  · rw [if_pos hc, genreIds_update]
    exact h
  · rw [if_neg hc]
    simp only [genreIds, List.map_append]
    exact List.mem_append_left _ h

theorem upsert_self_mem (store : List Genre) (i : Int) (n : String) :
    i ∈ genreIds (upsertGenre store i n).1 := by
  unfold upsertGenre
  by_cases hc : store.any (fun g => g.tmdb_id == i) = true
  · rw [if_pos hc, genreIds_update]
    exact (mem_genreIds_iff store i).mpr hc
  · rw [if_neg hc]
    simp [genreIds]

theorem syncGenres_mem (remote : List (Int × String)) :
    ∀ (store : List Genre) (j : Int), j ∈ genreIds store →
      j ∈ genreIds (syncGenresList store remote).1 := by
  induction remote with
  | nil => intro store j h; exact h
  | cons p rest ih =>
    intro store j h
    exact ih _ j (upsert_mem store p.1 p.2 j h)

theorem syncGenres_covers (remote : List (Int × String)) :
    ∀ (store : List Genre), ∀ p ∈ remote,
      p.1 ∈ genreIds (syncGenresList store remote).1 := by
  induction remote with
  | nil => intro store p hp; exact absurd hp (List.not_mem_nil p)
  | cons q rest ih =>
    intro store p hp
    rcases List.mem_cons.mp hp with h | h
    · subst h
      exact syncGenres_mem rest _ p.1 (upsert_self_mem store p.1 p.2)
    · exact ih _ p h

theorem syncGenres_idem (remote : List (Int × String)) :
    ∀ (store : List Genre), (∀ p ∈ remote, p.1 ∈ genreIds store) →
      (syncGenresList store remote).2.1 = 0 ∧
      genreIds (syncGenresList store remote).1 = genreIds store := by
  induction remote with
  | nil => intro store _; exact ⟨rfl, rfl⟩
  | cons q rest ih =>
    intro store hall
    have hq : q.1 ∈ genreIds store := hall q (List.mem_cons_self q rest)
    have hup := upsert_present store q.1 q.2 hq
    have hrest : ∀ p ∈ rest, p.1 ∈ genreIds (upsertGenre store q.1 q.2).1 := by
      intro p hp
      rw [hup.2]
      exact hall p (List.mem_cons_of_mem q hp)
    have hr := ih (upsertGenre store q.1 q.2).1 hrest
    unfold syncGenresList
    constructor
    · simp [hup.1, hr.1]
    · rw [hr.2, hup.2]

/-- C4 (confirmed): running the genre sync a second time with the same
remote genre list creates zero new rows, and the local genre count is
unchanged between the two runs. -/
theorem c4_confirmed (store : List Genre) (remote : List (Int × String)) :
    (syncGenresList (syncGenresList store remote).1 remote).2.1 = 0 ∧
    (syncGenresList (syncGenresList store remote).1 remote).1.length
      = (syncGenresList store remote).1.length := by
  have hcov : ∀ p ∈ remote, p.1 ∈ genreIds (syncGenresList store remote).1 :=
    syncGenres_covers remote store
  have h := syncGenres_idem remote _ hcov
  refine ⟨h.1, ?_⟩
  have := congrArg List.length h.2
  simpa [genreIds] using this

/-! ### C1 — per-movie genre link replacement -/

theorem createLinks_spec (gs : List Genre) (mid : Int) :
    ∀ (gids : List Int) (links : List (Int × Int)), gids.Nodup →
      (∀ g ∈ gids, gs.any (fun x => x.tmdb_id == g) = true) →
      (∀ g ∈ gids, (mid, g) ∉ links) →
      createLinks gs links mid gids = links ++ gids.map (fun g => (mid, g)) := by
  intro gids
  induction gids with
  | nil => intro links _ _ _; simp [createLinks]
  | cons g rest ih =>
    intro links hnd hall hnot
    unfold createLinks
    rw [if_pos (hall g (List.mem_cons_self g rest))]
    rw [if_neg (hnot g (List.mem_cons_self g rest))]
    rw [ih (links ++ [(mid, g)]) (List.Nodup.of_cons hnd)
          (fun x hx => hall x (List.mem_cons_of_mem g hx))
          ?_]
    · simp
    · intro x hx hmem
      rcases List.mem_append.mp hmem with hl | hr
      · exact hnot x (List.mem_cons_of_mem g hx) hl
      · have hx_eq : x = g := congrArg Prod.snd (List.mem_singleton.mp hr)
        exact (List.nodup_cons.mp hnd).1 (hx_eq ▸ hx)

/-- C1 (corrected), counterexample: a movie record whose `genre_ids` field
is the empty list leaves the movie's pre-existing links untouched (the
truthiness guard skips the delete-and-recreate), so a link to genre 5
survives even though 5 is not in the supplied (empty) list. -/
theorem c1_counterexample :
    ({ blankRecord 1 with genre_ids := some [] } : MovieRecord).genre_ids = some [] ∧
    ((processMovie ⟨[], [⟨5, "Action"⟩], [(1, 5)]⟩
        { blankRecord 1 with genre_ids := some [] }).1.links.filter
        (fun l => l.1 == (1 : Int))).map Prod.snd = [5] ∧
    ([5] : List Int) ≠ [] := by
  exact ⟨rfl, rfl, by decide⟩

/-- C1 (corrected, amended): for every sync pass over a movie record whose
supplied genre-id list is nonempty and duplicate-free, given that all
referenced genre ids pre-exist locally, the movie's linked genres after
the pass are exactly the supplied list (no stale link survives, one fresh
link per supplied id); an empty or absent `genre_ids` field leaves the
existing links untouched. -/
theorem c1_amended (db : DB) (rec : MovieRecord) (gids : List Int)
    (hg : rec.genre_ids = some gids) (hne : gids ≠ []) (hnd : gids.Nodup)
    (hpre : ∀ g ∈ gids, g ∈ genreIds db.genres) :
    ((processMovie db rec).1.links.filter (fun l => l.1 == rec.id)).map Prod.snd
      = gids := by
  have hnemp : gids.isEmpty = false := by
    cases gids with
    | nil => exact absurd rfl hne
    | cons x xs => rfl
  have hlinks : (processMovie db rec).1.links =
      createLinks db.genres (db.links.filter (fun l => !(l.1 == rec.id))) rec.id gids := by
    unfold processMovie
    simp [hg, hnemp]
  rw [hlinks]
  rw [createLinks_spec db.genres rec.id gids _ hnd
        (fun g hgm => (mem_genreIds_iff db.genres g).mp (hpre g hgm))
        ?_]
  · rw [List.filter_append]
    have h1 : (db.links.filter (fun l => !(l.1 == rec.id))).filter
        (fun l => l.1 == rec.id) = [] := by
      rw [List.filter_eq_nil_iff]
      intro a ha
      have := (List.mem_filter.mp ha).2
      simp at this ⊢
      exact this
    have h2 : (gids.map (fun g => (rec.id, g))).filter (fun l => l.1 == rec.id)
        = gids.map (fun g => (rec.id, g)) := by
      rw [List.filter_eq_self]
      intro a ha
      rcases List.mem_map.mp ha with ⟨g, _, rfl⟩
      simp
    rw [h1, h2, List.nil_append, List.map_map]
    simp
  · intro g _ hmem
    have := (List.mem_filter.mp hmem).2
    simp at this

/-- C1 witness: syncing a record carrying genre ids `[5, 9]` against a
store where both genres pre-exist leaves exactly the links to 5 and 9. -/
theorem c1_witness :
    ([5, 9] : List Int).Nodup ∧
    ((processMovie ⟨[], [⟨5, "Action"⟩, ⟨9, "Drama"⟩], [(3, 7)]⟩
        { blankRecord 3 with genre_ids := some [5, 9] }).1.links.filter
        (fun l => l.1 == (3 : Int))).map Prod.snd = [5, 9] := by
  refine ⟨by decide, ?_⟩
  exact c1_amended ⟨[], [⟨5, "Action"⟩, ⟨9, "Drama"⟩], [(3, 7)]⟩
    { blankRecord 3 with genre_ids := some [5, 9] } [5, 9] rfl (by decide) (by decide)
    (by decide)

/-! ### C6, C7 — movie upsert: dates and scalar defaults -/

theorem upsertMovie_rows (movies : List MovieRow) (rec : MovieRecord)
    (rd : Option Date) :
    (∀ row ∈ (upsertMovie movies rec rd).1, row.tmdb_id = rec.id →
       row = movieDefaults rec rd rec.id) ∧
    (∃ row ∈ (upsertMovie movies rec rd).1, row.tmdb_id = rec.id) := by
  unfold upsertMovie
  by_cases hc : movies.any (fun m => m.tmdb_id == rec.id) = true
  · rw [if_pos hc]
    constructor
    · intro row hrow hid
      rcases List.mem_map.mp hrow with ⟨m, _, rfl⟩
      by_cases hmid : (m.tmdb_id == rec.id) = true
      · rw [if_pos hmid] at hid ⊢
        rw [beq_iff_eq.mp hmid]
      · rw [if_neg hmid] at hid ⊢
        exact absurd (beq_iff_eq.mpr hid) hmid
    · rcases List.any_eq_true.mp hc with ⟨m, hm, hmid⟩
      refine ⟨movieDefaults rec rd rec.id, List.mem_map.mpr ⟨m, hm, ?_⟩, rfl⟩
      rw [if_pos hmid, beq_iff_eq.mp hmid]
  · rw [if_neg hc]
    rw [List.any_eq_true] at hc
    constructor
    · intro row hrow hid
      rcases List.mem_append.mp hrow with hl | hr
      · exact absurd ⟨row, hl, beq_iff_eq.mpr hid⟩ hc
      · rw [List.mem_singleton.mp hr]
    · exact ⟨movieDefaults rec rd rec.id,
             List.mem_append_right _ (List.mem_singleton.mpr rfl), rfl⟩

/-- C6 (confirmed): when the source record's `release_date` is absent or
fails to parse as a valid `YYYY-MM-DD` date, the record is still upserted
and the stored release date is null, with the other fields written as
usual. -/
theorem c6_confirmed (db : DB) (rec : MovieRecord)
    (h : ∀ s, rec.release_date = some s → parseDate s = none) :
    (∃ row ∈ (processMovie db rec).1.movies, row.tmdb_id = rec.id) ∧
    (∀ row ∈ (processMovie db rec).1.movies, row.tmdb_id = rec.id →
      row.release_date = none ∧ row.title = rec.title.getD "" ∧
      row.overview = rec.overview.getD "" ∧ row.vote_count = rec.vote_count.getD 0) := by
  have hrd : (match rec.release_date with
      | some s => if s.isEmpty then none else parseDate s
      | none => (none : Option Date)) = none := by
    cases hrel : rec.release_date with
    | none => rfl
    | some s =>
      by_cases hs : s.isEmpty = true
      · simp [hs]
      · simp [hs, h s hrel]
  have key : (processMovie db rec).1.movies = (upsertMovie db.movies rec none).1 := by
    unfold processMovie
    rw [hrd]
  rw [key]
  constructor
  · exact (upsertMovie_rows db.movies rec none).2
  · intro row hrow hid
    rw [(upsertMovie_rows db.movies rec none).1 row hrow hid]
    exact ⟨rfl, rfl, rfl, rfl⟩

/-- C6 witness: the record with date string `"not-a-date"` is upserted
with a null stored date. -/
theorem c6_witness :
    parseDate "not-a-date" = none ∧
    ∃ row ∈ (processMovie ⟨[], [], []⟩ recBad).1.movies,
      row.tmdb_id = recBad.id ∧ row.release_date = none := by
  have hc := c6_confirmed ⟨[], [], []⟩ recBad
    (fun s hs => by injection hs with h2; rw [← h2]; decide)
  rcases hc.1 with ⟨row, hrow, hid⟩
  exact ⟨by decide, row, hrow, hid, (hc.2 row hrow hid).1⟩

/-- C7 (corrected), counterexample: a record with every optional field
absent is stored with `vote_average` and `popularity` null — not zero as
the claim states for the numeric vote-stat/popularity fields (`.get` with
no fallback, and the model columns are nullable). -/
theorem c7_counterexample :
    ((processMovie ⟨[], [], []⟩ (blankRecord 7)).1.movies.find?
        (fun m => m.tmdb_id == (7 : Int)))
      = some (movieDefaults (blankRecord 7) none 7) ∧
    (movieDefaults (blankRecord 7) none 7).vote_average = none ∧
    (movieDefaults (blankRecord 7) none 7).popularity = none ∧
    (none : Option Rat) ≠ some 0 := by
  refine ⟨rfl, rfl, rfl, by simp⟩

/-- C7 (corrected, amended): every scalar field absent upstream is stored
with its default — string fields as the empty string, boolean flags as
false, `vote_count` as zero — while the nullable numeric fields
`vote_average` and `popularity` are stored as null, not zero. -/
theorem c7_amended (db : DB) (rec : MovieRecord) :
    ∀ row ∈ (processMovie db rec).1.movies, row.tmdb_id = rec.id →
      (rec.title = none → row.title = "") ∧
      (rec.original_title = none → row.original_title = "") ∧
      (rec.overview = none → row.overview = "") ∧
      (rec.poster_path = none → row.poster_path = "") ∧
      (rec.backdrop_path = none → row.backdrop_path = "") ∧
      (rec.original_language = none → row.original_language = "") ∧
      (rec.adult = none → row.adult = false) ∧
      (rec.video = none → row.video = false) ∧
      (rec.vote_count = none → row.vote_count = 0) ∧
      (rec.vote_average = none → row.vote_average = none) ∧
      (rec.popularity = none → row.popularity = none) := by
  intro row hrow hid
  have key : (processMovie db rec).1.movies =
      (upsertMovie db.movies rec (match rec.release_date with
        | some s => if s.isEmpty then none else parseDate s
        | none => (none : Option Date))).1 := rfl
  rw [key] at hrow
  rw [(upsertMovie_rows db.movies rec _).1 row hrow hid]
  simp only [movieDefaults]
  refine ⟨fun h2 => by simp [h2], fun h2 => by simp [h2], fun h2 => by simp [h2],
          fun h2 => by simp [h2], fun h2 => by simp [h2], fun h2 => by simp [h2],
          fun h2 => by simp [h2], fun h2 => by simp [h2], fun h2 => by simp [h2],
          fun h2 => h2, fun h2 => h2⟩

/-- C7 witness: the all-absent record is stored with empty title and null
vote average. -/
theorem c7_witness :
    (blankRecord 7).title = none ∧
    (movieDefaults (blankRecord 7) none 7).title = "" ∧
    (movieDefaults (blankRecord 7) none 7).vote_average = none := by
  have hm : movieDefaults (blankRecord 7) none 7
      ∈ (processMovie ⟨[], [], []⟩ (blankRecord 7)).1.movies :=
    List.mem_singleton.mpr rfl
  have h := c7_amended ⟨[], [], []⟩ (blankRecord 7) _ hm rfl
  exact ⟨rfl, h.1 rfl, h.2.2.2.2.2.2.2.2.2.1 rfl⟩

/-! ### C3 — proxy list endpoints on `page=0` and `page=abc` -/

/-- C3 (corrected), counterexample: the popular-movies proxy performs no
range check on the page number, so `page=0` is forwarded to the vendor;
when the vendor call fails (here: transport error, as TMDb rejects page 0)
the endpoint answers 503 — a 5xx, not the client error the claim
promises. -/
theorem c3_counterexample :
    (PopularMoviesAPIView.get envBearer [("page", "0")] netFail).status = 503 ∧
    ¬(400 ≤ (PopularMoviesAPIView.get envBearer [("page", "0")] netFail).status ∧
      (PopularMoviesAPIView.get envBearer [("page", "0")] netFail).status < 500) := by
  refine ⟨rfl, ?_⟩
  rw [(rfl : (PopularMoviesAPIView.get envBearer [("page", "0")] netFail).status = 503)]
  decide

/-- C3 (corrected, amended): with credentials configured, every proxy list
endpoint answers `page=abc` with a 400 client error and never crashes; but
`page=0` is forwarded to the vendor unvalidated: when the vendor call
fails the endpoint answers its falsy-data status — 503 for the list
endpoints (a 5xx, not a client error) and 404 for the
similar/recommendations endpoints — when the vendor returns a well-formed
page the answer is 200, and when the vendor returns data whose results
fail DRF serialization the exception surfaces through the view's `except`
branches (500 for a missing required field, the view's ValueError
response for a non-coercible numeric value). -/
theorem c3_amended (env : Env) (net : Net) (mid : Int)
    (h : truthy env.bearer_token = true ∨ truthy env.api_key = true) :
    ((PopularMoviesAPIView.get env [("page", "abc")] net).status = 400 ∧
     (PopularMoviesAPIView.get env [("page", "0")] netFail).status = 503 ∧
     (PopularMoviesAPIView.get env [("page", "0")] netOk).status = 200 ∧
     (PopularMoviesAPIView.get env [("page", "0")] netBadItem).status = 500 ∧
     (PopularMoviesAPIView.get env [("page", "0")] netBadValue).status = 400) ∧
    ((TopRatedMoviesAPIView.get env [("page", "abc")] net).status = 400 ∧
     (TopRatedMoviesAPIView.get env [("page", "0")] netFail).status = 503 ∧
     (TopRatedMoviesAPIView.get env [("page", "0")] netOk).status = 200) ∧
    ((NowPlayingMoviesAPIView.get env [("page", "abc")] net).status = 400 ∧
     (NowPlayingMoviesAPIView.get env [("page", "0")] netFail).status = 503 ∧
     (NowPlayingMoviesAPIView.get env [("page", "0")] netOk).status = 200) ∧
    ((UpcomingMoviesAPIView.get env [("page", "abc")] net).status = 400 ∧
     (UpcomingMoviesAPIView.get env [("page", "0")] netFail).status = 503 ∧
     (UpcomingMoviesAPIView.get env [("page", "0")] netOk).status = 200) ∧
    ((SearchMoviesAPIView.get env [("q", "x"), ("page", "abc")] net).status = 400 ∧
     (SearchMoviesAPIView.get env [("q", "x"), ("page", "0")] netFail).status = 503 ∧
     (SearchMoviesAPIView.get env [("q", "x"), ("page", "0")] netOk).status = 200) ∧
    ((TrendingMoviesAPIView.get env [("page", "abc")] net).status = 400 ∧
     (TrendingMoviesAPIView.get env [("page", "0")] netFail).status = 503 ∧
     (TrendingMoviesAPIView.get env [("page", "0")] netOk).status = 200) ∧
    ((MoviesByGenreAPIView.get env [("genres", "28"), ("page", "abc")] net).status = 400 ∧
     (MoviesByGenreAPIView.get env [("genres", "28"), ("page", "0")] netFail).status = 503 ∧
     (MoviesByGenreAPIView.get env [("genres", "28"), ("page", "0")] netOk).status = 200) ∧
    ((DiscoverMoviesAPIView.get env [("page", "abc")] net).status = 400 ∧
     (DiscoverMoviesAPIView.get env [("page", "0")] netFail).status = 503 ∧
     (DiscoverMoviesAPIView.get env [("page", "0")] netOk).status = 200) ∧
    ((SimilarMoviesAPIView.get env mid [("page", "abc")] net).status = 400 ∧
     (SimilarMoviesAPIView.get env mid [("page", "0")] netFail).status = 404 ∧
     (SimilarMoviesAPIView.get env mid [("page", "0")] netOk).status = 200) ∧
    ((MovieRecommendationsAPIView.get env mid [("page", "abc")] net).status = 400 ∧
     (MovieRecommendationsAPIView.get env mid [("page", "0")] netFail).status = 404 ∧
     (MovieRecommendationsAPIView.get env mid [("page", "0")] netOk).status = 200) := by
  have hok := init_ok env h
  refine ⟨⟨?_, ?_, ?_, ?_, ?_⟩, ⟨?_, ?_, ?_⟩, ⟨?_, ?_, ?_⟩, ⟨?_, ?_, ?_⟩,
          ⟨?_, ?_, ?_⟩, ⟨?_, ?_, ?_⟩, ⟨?_, ?_, ?_⟩, ⟨?_, ?_, ?_⟩,
          ⟨?_, ?_, ?_⟩, ⟨?_, ?_, ?_⟩⟩ <;>
    first
      | (simp only [PopularMoviesAPIView.get, hok]; rfl)
      | (simp only [TopRatedMoviesAPIView.get, hok]; rfl)
      | (simp only [NowPlayingMoviesAPIView.get, hok]; rfl)
      | (simp only [UpcomingMoviesAPIView.get, hok]; rfl)
      | (simp only [SearchMoviesAPIView.get, hok]; rfl)
      | (simp only [TrendingMoviesAPIView.get, hok]; rfl)
      | (simp only [MoviesByGenreAPIView.get, hok]; rfl)
      | (simp only [DiscoverMoviesAPIView.get, hok]; rfl)
      | (simp only [SimilarMoviesAPIView.get, hok]; rfl)
      | (simp only [MovieRecommendationsAPIView.get, hok]; rfl)

/-- C3 witness: the amended behaviour at a concrete bearer-configured
environment, under a failing network, a well-formed network and the two
serialization-breaking networks. -/
theorem c3_witness :
    truthy envBearer.bearer_token = true ∧
    (PopularMoviesAPIView.get envBearer [("page", "abc")] netFail).status = 400 ∧
    (PopularMoviesAPIView.get envBearer [("page", "0")] netFail).status = 503 ∧
    (PopularMoviesAPIView.get envBearer [("page", "0")] netOk).status = 200 ∧
    (PopularMoviesAPIView.get envBearer [("page", "0")] netBadItem).status = 500 ∧
    (PopularMoviesAPIView.get envBearer [("page", "0")] netBadValue).status = 400 ∧
    (DiscoverMoviesAPIView.get envBearer [("page", "abc")] netFail).status = 400 := by
  have h := c3_amended envBearer netFail 550 (Or.inl rfl)
  exact ⟨rfl, h.1.1, h.1.2.1, h.1.2.2.1, h.1.2.2.2.1, h.1.2.2.2.2,
         h.2.2.2.2.2.2.2.1.1⟩

/-! ### C9 — search validates its query before the service is built -/

/-- C9 (confirmed): a blank or missing `q` yields 400 from the search
endpoint before the service is constructed — even with no credential
configured — while every other proxy endpoint constructs the service first
and so maps a missing credential configuration to a 500. -/
theorem c9_confirmed (env : Env) (query : List (String × String)) (net : Net)
    (movie_id tmdb_id : Int)
    (hb : truthy env.bearer_token = false) (ha : truthy env.api_key = false)
    (hq : (pyStrip ((qget query "q").getD "")).isEmpty = true) :
    (SearchMoviesAPIView.get env query net).status = 400 ∧
    (PopularMoviesAPIView.get env query net).status = 500 ∧
    (TopRatedMoviesAPIView.get env query net).status = 500 ∧
    (NowPlayingMoviesAPIView.get env query net).status = 500 ∧
    (UpcomingMoviesAPIView.get env query net).status = 500 ∧
    (TMDbMovieDetailAPIView.get env tmdb_id net).status = 500 ∧
    (TMDbGenresAPIView.get env net).status = 500 ∧
    (SimilarMoviesAPIView.get env movie_id query net).status = 500 ∧
    (MovieRecommendationsAPIView.get env movie_id query net).status = 500 ∧
    (TrendingMoviesAPIView.get env query net).status = 500 ∧
    (MoviesByGenreAPIView.get env query net).status = 500 ∧
    (DiscoverMoviesAPIView.get env query net).status = 500 := by
  have he := init_error env hb ha
  refine ⟨?_, ?_, ?_, ?_, ?_, ?_, ?_, ?_, ?_, ?_, ?_, ?_⟩
  · simp [SearchMoviesAPIView.get, hq]
  · simp [PopularMoviesAPIView.get, he, configErrorResponse]
  · simp [TopRatedMoviesAPIView.get, he, configErrorResponse]
  · simp [NowPlayingMoviesAPIView.get, he, configErrorResponse]
  · simp [UpcomingMoviesAPIView.get, he, configErrorResponse]
  · simp [TMDbMovieDetailAPIView.get, he, configErrorResponse]
  · simp [TMDbGenresAPIView.get, he, configErrorResponse]
  · simp [SimilarMoviesAPIView.get, he, configErrorResponse]
  · simp [MovieRecommendationsAPIView.get, he, configErrorResponse]
  · simp [TrendingMoviesAPIView.get, he, configErrorResponse]
  · simp [MoviesByGenreAPIView.get, he, configErrorResponse]
  · simp [DiscoverMoviesAPIView.get, he, configErrorResponse]

/-- C9 witness: with no credential configured, search with no `q` still
answers 400 while the popular and discover endpoints answer 500. -/
theorem c9_witness :
    (SearchMoviesAPIView.get envNone [] netFail).status = 400 ∧
    (PopularMoviesAPIView.get envNone [] netFail).status = 500 ∧
    (DiscoverMoviesAPIView.get envNone [] netFail).status = 500 := by
  have h := c9_confirmed envNone [] netFail 550 550 rfl rfl (by decide)
  exact ⟨h.1, h.2.1, h.2.2.2.2.2.2.2.2.2.2.2⟩

end Popcornflix
